import Mathlib

/-!
Shallow embedding of the short-video generation pipeline of
`backend/shorts/views.py` (Django backend of Shorts-frontend).

Python floats are modelled as rationals (`ℚ`); Python `round` is
round-half-to-even (`pyRound`), Python `int()` on a float truncates toward
zero (`pyTrunc`).  Machine paths, the filesystem, and the outcomes of the
external collaborators (yt-dlp, ffprobe, ffmpeg, the database) are passed
in explicitly, so every function here is pure and executable.
-/

/-- Python 3 `round(x)` on a real value: round half to even. -/
def pyRound (q : ℚ) : ℤ :=
  let f : ℤ := ⌊q⌋
  let frac : ℚ := q - f
  if frac < 1/2 then f
  else if 1/2 < frac then f + 1
  else if f % 2 = 0 then f else f + 1

/-- Python `int()` applied to a float: truncation toward zero. -/
def pyTrunc (q : ℚ) : ℤ :=
  if 0 ≤ q then ⌊q⌋ else ⌈q⌉

/-- `CropOptions` TypedDict of `views.py`: x, y, width, height as floats. -/
structure CropOptions where
  x : ℚ
  y : ℚ
  width : ℚ
  height : ℚ
  deriving DecidableEq, Repr

/-- `_normalize_crop_area(crop, source_width, source_height)` of `views.py`
(lines 217-260): clamp the user selection to the source bounds and quantize
to even integers, or return `none`. -/
def normalize_crop_area (crop : CropOptions) (source_width source_height : ℤ) :
    Option CropOptions :=
  let x : ℚ := max 0 (min crop.x ((source_width : ℚ) - 1))
  let y : ℚ := max 0 (min crop.y ((source_height : ℚ) - 1))
  let width : ℚ := max 1 crop.width
  let height : ℚ := max 1 crop.height
  let width : ℚ :=
    if x + width > (source_width : ℚ) then max 1 ((source_width : ℚ) - x) else width
  let height : ℚ :=
    if y + height > (source_height : ℚ) then max 1 ((source_height : ℚ) - y) else height
  if width ≤ 1 ∨ height ≤ 1 then none
  else
    let left : ℤ := pyRound x
    let top : ℤ := pyRound y
    let right : ℤ := min source_width (pyRound (x + width))
    let bottom : ℤ := min source_height (pyRound (y + height))
    let width_int : ℤ := max 2 (right - left)
    let height_int : ℤ := max 2 (bottom - top)
    let width_int : ℤ := if width_int % 2 = 1 then width_int - 1 else width_int
    let height_int : ℤ := if height_int % 2 = 1 then height_int - 1 else height_int
    if width_int < 2 ∨ height_int < 2 then none
    else
      let left : ℤ :=
        if left + width_int > source_width then max 0 (source_width - width_int) else left
      let top : ℤ :=
        if top + height_int > source_height then max 0 (source_height - height_int) else top
      some ⟨(left : ℚ), (top : ℚ), (width_int : ℚ), (height_int : ℚ)⟩

/-- A rational is an even integer. -/
def isEvenInt (q : ℚ) : Prop := ∃ k : ℤ, q = (2 * k : ℤ)

/-! ### Python string primitives

Python `str` values are modelled as Lean `String`; the operations used by
the code (`upper`, `lstrip("#")`, `startswith("#")`, `strip`, `len`,
`replace`) are modelled on the underlying character list.  `upper` is
modelled for the basic latin range, which covers every string the code
manipulates. -/

def hashChar : Char := Char.ofNat 35

def squoteStr : String := ⟨[Char.ofNat 39]⟩

def pyUpper (s : String) : String := ⟨s.data.map Char.toUpper⟩

def lstripHash (s : String) : String := ⟨s.data.dropWhile (fun c => c = hashChar)⟩

def startsWithHash (s : String) : Bool :=
  match s.data with
  | [] => false
  | c :: _ => c = hashChar

def pyLen (s : String) : ℕ := s.data.length

def pyStrip (s : String) : String :=
  ⟨((s.data.dropWhile Char.isWhitespace).reverse.dropWhile Char.isWhitespace).reverse⟩

/-- `s` begins with the prefix `p`. -/
def strStartsWith (s p : String) : Prop := ∃ rest : List Char, s.data = p.data ++ rest

/-- Decimal rendering of a (nonnegative) machine integer, as Python prints it. -/
def intToString (i : ℤ) : String :=
  if i < 0 then "-" ++ toString i.natAbs else toString i.natAbs

/-! ### Constants of `views.py` (lines 35-50) -/

def DEFAULT_OVERLAY_TEXT : String := "My Shorts Video"

def DEFAULT_OVERLAY_FONT : String := "Arial"

def DEFAULT_OVERLAY_COLOR : String := "#FFFFFF"

def DEFAULT_FONT_PATH : String := "/usr/share/fonts/truetype/dejavu/DejaVuSans-Bold.ttf"

def DEFAULT_FONT_SIZE : ℤ := 48

def FONT_PATH_OVERRIDES : List (String × String) :=
  [("Arial", "/usr/share/fonts/truetype/dejavu/DejaVuSans.ttf"),
   ("Roboto", "/usr/share/fonts/truetype/ubuntu/Ubuntu-R.ttf"),
   ("Poppins", "/usr/share/fonts/truetype/ubuntu/Ubuntu-B.ttf"),
   ("Pacifico", "/usr/share/fonts/truetype/freefont/FreeSerif.ttf"),
   ("Montserrat", "/usr/share/fonts/truetype/ubuntu/Ubuntu-B.ttf")]

def OVERLAY_FONT_CHOICES : List String :=
  ["Arial", "Roboto", "Poppins", "Pacifico", "Montserrat"]

/-- `OverlayOptions` TypedDict of `views.py`; the two optional position
ratios are `Option`s. -/
structure OverlayOptions where
  text : String
  font : String
  color : String
  font_size : ℤ
  position_x_ratio : Option ℚ
  position_y_ratio : Option ℚ
  deriving DecidableEq, Repr

/-! ### View-level normalization (`ShortGenerateView.post`, lines 336-369) -/

/-- Lines 340-343: `#`-prefix and uppercase the requested color, falling
back to the default on any length other than 7.  A missing or empty
(falsy) `overlay_color` field is modelled as `""`. -/
def normalize_overlay_color (raw : String) : String :=
  let raw_color := if raw = "" then DEFAULT_OVERLAY_COLOR else raw
  let overlay_color :=
    if startsWithHash raw_color then pyUpper raw_color
    else "#" ++ pyUpper raw_color
  if pyLen overlay_color ≠ 7 then DEFAULT_OVERLAY_COLOR else overlay_color

/-- The overlay-relevant fields of the validated generation payload;
`none` models an absent optional field. -/
structure GenerationPayload where
  overlay_text : Option String
  overlay_font : Option String
  overlay_color : Option String
  overlay_font_size : Option ℤ
  overlay_text_x : Option ℚ
  overlay_text_y : Option ℚ
  deriving DecidableEq, Repr

/-- Lines 336-369 of `ShortGenerateView.post`: defaulting of text, font,
color and font size, and clamping of the optional position ratios. -/
def build_overlay_options (p : GenerationPayload) : OverlayOptions :=
  let overlay_text :=
    let stripped := pyStrip (p.overlay_text.getD "")
    if stripped = "" then DEFAULT_OVERLAY_TEXT else stripped
  let overlay_font :=
    let f := p.overlay_font.getD ""
    let f := if f = "" then DEFAULT_OVERLAY_FONT else f
    if OVERLAY_FONT_CHOICES.contains f then f else DEFAULT_OVERLAY_FONT
  let overlay_color := normalize_overlay_color (p.overlay_color.getD "")
  let overlay_font_size :=
    let raw := p.overlay_font_size.getD DEFAULT_FONT_SIZE
    if raw ≤ 0 then DEFAULT_FONT_SIZE else raw
  { text := overlay_text
    font := overlay_font
    color := overlay_color
    font_size := overlay_font_size
    position_x_ratio := p.overlay_text_x.map (fun v => max 0 (min 1 v))
    position_y_ratio := p.overlay_text_y.map (fun v => max 0 (min 1 v)) }

/-! ### Filter-graph construction (`process_short_video`, lines 531-608) -/

/-- `_escape_drawtext_value` (lines 454-459). -/
def escape_drawtext_value (value : String) : String :=
  ((value.replace "\\" "\\\\").replace ":" "\\:").replace squoteStr ("\\" ++ squoteStr)

/-- Lines 545-548: strip leading `#`s, fall back to `FFFFFF` on any length
other than 6, and render as a `0x` hex literal. -/
def fontcolor_value (color : String) : String :=
  let color_value := lstripHash color
  let color_value := if pyLen color_value ≠ 6 then "FFFFFF" else color_value
  "0x" ++ pyUpper color_value

/-- Lines 550-553: font-path lookup with fallback to the default font when
the mapped file does not exist (`font_exists` is the filesystem). -/
def resolve_font_path (requested_font : String) (font_exists : String → Bool) : String :=
  let font_path := (FONT_PATH_OVERRIDES.lookup requested_font).getD DEFAULT_FONT_PATH
  if font_exists font_path then font_path else DEFAULT_FONT_PATH

/-- Line 550: `overlay.get("font") or "Arial"`. -/
def requested_font_of (overlay : OverlayOptions) : String :=
  if overlay.font = "" then "Arial" else overlay.font

/-- Lines 555-561: font-size re-validation inside the worker. -/
def font_size_value_of (overlay : OverlayOptions) : ℤ :=
  if overlay.font_size ≤ 0 then DEFAULT_FONT_SIZE else overlay.font_size

/-- Decimal rendering of a count of millionths as a fixed-point numeral
with exactly six decimal digits. -/
def renderFixed6 (n : ℕ) : String :=
  let intPart := toString (n / 1000000)
  let fracDigits := toString (n % 1000000)
  let fracPart : String :=
    ⟨List.replicate (6 - pyLen fracDigits) (Char.ofNat 48) ++ fracDigits.data⟩
  intPart ++ "." ++ fracPart

/-- Python `f"{x:.6f}"`: fixed-point rendering with exactly six decimal
digits, rounding half to even. -/
def formatRatio6 (q : ℚ) : String :=
  (if q < 0 then "-" else "") ++ renderFixed6 (pyRound (|q| * 1000000)).toNat

/-- Lines 566-572: the drawtext x position expression. -/
def x_expression_of (r : Option ℚ) : String :=
  match r with
  | some v => "min(max(w*" ++ formatRatio6 v ++ "-text_w/2\\,0)\\,w-text_w)"
  | none => "(w-text_w)/2"

/-- Lines 574-580: the drawtext y position expression. -/
def y_expression_of (r : Option ℚ) : String :=
  match r with
  | some v => "min(max(h*" ++ formatRatio6 v ++ "-text_h/2\\,0)\\,h-text_h)"
  | none => "50"

/-- Lines 597-606: the drawtext stage. -/
def text_overlay_of (overlay : OverlayOptions) (font_exists : String → Bool) : String :=
  "drawtext=text=" ++ squoteStr ++ escape_drawtext_value overlay.text ++ squoteStr ++ ":" ++
  "fontfile=" ++ resolve_font_path (requested_font_of overlay) font_exists ++ ":" ++
  "fontsize=" ++ intToString (font_size_value_of overlay) ++ ":" ++
  "fontcolor=" ++ fontcolor_value overlay.color ++ ":" ++
  "x=" ++ x_expression_of overlay.position_x_ratio ++ ":" ++
  "y=" ++ y_expression_of overlay.position_y_ratio ++ ":" ++
  "shadowcolor=black:shadowx=2:shadowy=2"

/-- Lines 536-540: the custom crop stage for a normalized rectangle. -/
def crop_filter_of (n : CropOptions) : String :=
  "crop=" ++ intToString (max 2 (pyRound n.width)) ++ ":" ++
    intToString (max 2 (pyRound n.height)) ++ ":" ++
    intToString (max 0 (pyRound n.x)) ++ ":" ++
    intToString (max 0 (pyRound n.y))

/-- Lines 532-535: the crop is normalized only when one was supplied. -/
def normalized_crop_of (crop : Option CropOptions) (sw sh : ℤ) : Option CropOptions :=
  match crop with
  | some c => normalize_crop_area c sw sh
  | none => none

/-- Lines 531-541 and 582-608: the ordered filter list passed to the
transcoder. -/
def build_filters (overlay : OverlayOptions) (crop : Option CropOptions)
    (source_width source_height : ℤ) (font_exists : String → Bool) : List String :=
  let normalized := normalized_crop_of crop source_width source_height
  let crop_filter := match normalized with
    | some n => crop_filter_of n
    | none => ""
  let use_custom_crop := normalized.isSome
  let geometry :=
    if use_custom_crop = true ∧ crop_filter ≠ "" then
      [crop_filter,
       "scale=1080:1920:force_original_aspect_ratio=decrease",
       "pad=1080:1920:(1080-iw)/2:(1920-ih)/2",
       "setsar=1"]
    else
      ["scale=1080:1920:force_original_aspect_ratio=increase",
       "crop=1080:1920",
       "setsar=1"]
  geometry ++ [text_overlay_of overlay font_exists]

/-- Line 608: the single comma-joined filter-graph expression. -/
def video_filters_of (overlay : OverlayOptions) (crop : Option CropOptions)
    (source_width source_height : ℤ) (font_exists : String → Bool) : String :=
  String.intercalate "," (build_filters overlay crop source_width source_height font_exists)

/-- Modelled from the spec: a well-formed 6-hex-digit RGB value, used only
to state what the code does NOT check. -/
def isHexDigitChar (c : Char) : Bool :=
  (Char.ofNat 48 ≤ c && c ≤ Char.ofNat 57) ||
  (Char.ofNat 65 ≤ c && c ≤ Char.ofNat 70) ||
  (Char.ofNat 97 ≤ c && c ≤ Char.ofNat 102)

/-- Modelled from the spec: a string of exactly six hex digits. -/
def wellFormedHexColor (s : String) : Bool :=
  pyLen s = 6 && s.data.all isHexDigitChar

/-! ### Source resolution (`_download_source_video`, lines 75-161) -/

/-- One entry of the fetcher's `requested_downloads` collection; `none`
models an absent or non-string field. -/
structure DownloadEntry where
  filepath : Option String
  u_filename : Option String
  deriving DecidableEq, Repr

/-- `entry.get("filepath") or entry.get("_filename")`, keeping only string
results (the `isinstance` check). An empty string is falsy in Python, so a
present-but-empty `filepath` falls back to `_filename`. -/
def entry_path (e : DownloadEntry) : Option String :=
  match e.filepath with
  | some s => if s = "" then e.u_filename else some s
  | none => e.u_filename

/-- The fetcher metadata fields read by the resolver and the pipeline;
`none` models an absent or wrongly-typed field. -/
structure FetchInfo where
  requested_downloads : Option (List DownloadEntry)
  u_filename : Option String
  filename : Option String
  filepath : Option String
  width : Option ℤ
  height : Option ℤ
  duration : Option ℚ
  deriving DecidableEq, Repr

/-- Outcome of `ydl.prepare_filename(info)` (lines 115-122). -/
inductive PrepareResult where
  | ok (path : String)
  | keyError
  | osError (msg : String)
  deriving DecidableEq, Repr

/-- Outcome of `ydl.extract_info` (lines 96-99): a transport error
(`DownloadError`/`OSError`), a non-mapping result, or metadata plus the
prepare-filename outcome. -/
inductive FetchOutcome where
  | fetchError (msg : String)
  | badMeta
  | ok (info : FetchInfo) (prep : PrepareResult)

/-- A scratch-directory entry as seen by `temp_path.iterdir()`. -/
structure DirEntry where
  path : String
  is_file : Bool
  size : ℤ
  deriving DecidableEq, Repr

/-- The filesystem facts consulted by one run. -/
structure FS where
  isAbsolute : String → Bool
  resolveRel : String → String
  pathExists : String → Bool
  iterdir : List DirEntry

def pyEndsWith (s suffix : String) : Bool := suffix.data.isSuffixOf s.data

/-- Lines 100-122: candidate paths in priority order: the prepared filename
(inserted at index 0 when `prepare_filename` succeeds), then
`requested_downloads` entries, then the top-level `_filename`, `filename`,
`filepath` fields. -/
def candidate_paths (info : FetchInfo) (prep : PrepareResult) : List String :=
  let cands :=
    (match info.requested_downloads with
     | some entries => entries.filterMap entry_path
     | none => []) ++
    ([info.u_filename, info.filename, info.filepath].filterMap id)
  match prep with
  | .ok p => p :: cands
  | _ => cands

/-- Lines 124-136: deduplicate by string identity, resolve relative
candidates against the scratch directory, and return the first that
exists. -/
def resolve_first_existing (fs : FS) : List String → List String → Option String
  | [], _ => none
  | c :: rest, seen =>
    if c ∈ seen then resolve_first_existing fs rest seen
    else
      let cp := if fs.isAbsolute c then c else fs.resolveRel c
      if fs.pathExists cp then some cp else resolve_first_existing fs rest (c :: seen)

/-- Lines 139-145: regular files excluding in-progress and sidecar files. -/
def fallback_candidates (dir : List DirEntry) : List DirEntry :=
  dir.filter (fun e =>
    e.is_file && !(pyEndsWith e.path ".part") && !(pyEndsWith e.path ".info.json"))

/-- Lines 146-148: the first entry of maximal size (head of the stable
descending sort by byte size). -/
def pick_largest : List DirEntry → Option String
  | [] => none
  | e :: rest =>
    some ((rest.foldl (fun best x => if x.size > best.size then x else best) e).path)

/-- `_download_source_video` (lines 75-161): resolve the downloaded file
from the fetch outcome, with transport errors wrapped. -/
def download_source_video (fs : FS) (dl : FetchOutcome) :
    Except String (String × FetchInfo) :=
  match dl with
  | .fetchError e => .error ("Failed to download source video: " ++ e)
  | .badMeta => .error "Failed to retrieve metadata for the source video."
  | .ok info prep =>
    match prep with
    | .osError msg => .error ("Failed to download source video: " ++ msg)
    | _ =>
      match resolve_first_existing fs (candidate_paths info prep) [] with
      | some p => .ok (p, info)
      | none =>
        match pick_largest (fallback_candidates fs.iterdir) with
        | some p => .ok (p, info)
        | none =>
          .error "Downloaded source video was not found. Try again with a different URL."

/-! ### The background unit of work (`process_short_video` lines 504-648,
`_start_background_processing` lines 393-414) -/

/-- The job fields consumed by the worker. -/
structure Short where
  start_time : ℤ
  duration : ℤ
  deriving DecidableEq, Repr

/-- `_extract_video_dimensions` (lines 198-214): metadata first, probe
second, error when neither yields positive dimensions. -/
def extract_video_dimensions (info : FetchInfo) (probe : Option (ℤ × ℤ)) :
    Except String (ℤ × ℤ) :=
  match info.width, info.height with
  | some w, some h =>
    if w > 0 ∧ h > 0 then .ok (w, h)
    else
      match probe with
      | some (pw, ph) =>
        if pw > 0 ∧ ph > 0 then .ok (pw, ph)
        else .error "Unable to determine source video dimensions."
      | none => .error "Unable to determine source video dimensions."
  | _, _ =>
    match probe with
    | some (pw, ph) =>
      if pw > 0 ∧ ph > 0 then .ok (pw, ph)
      else .error "Unable to determine source video dimensions."
    | none => .error "Unable to determine source video dimensions."

/-- Terminal job status values. -/
inductive JobStatus where
  | completed
  | failed
  deriving DecidableEq, Repr

/-- One terminal database write: status, error message, and the attached
artifact reference (the stored output file), if any. -/
structure TerminalWrite where
  status : JobStatus
  error_message : String
  file : Option String
  deriving DecidableEq, Repr

/-- Observable effects of one run: invoking the transcoder, and terminal
status writes. -/
inductive PipeEvent where
  | ffmpegRun
  | write (w : TerminalWrite)
  deriving DecidableEq, Repr

/-- Outcomes of the external collaborators consumed by one
`process_short_video` run. -/
structure ProcEnv where
  fs : FS
  dl : FetchOutcome
  probe : Option (ℤ × ℤ)
  ffmpeg_returncode : ℤ
  ffmpeg_stderr : String
  file_save : Except String Unit
  out_filename : String

/-- Lines 528-648 after dimension extraction and window validation:
build the filter graph, run the transcoder, persist the artifact, and on
success perform the terminal completed write. -/
def process_tail (overlay : OverlayOptions) (crop : Option CropOptions)
    (source_width source_height : ℤ) (env : ProcEnv) :
    List PipeEvent × Except String Unit :=
  let _filters := build_filters overlay crop source_width source_height env.fs.pathExists
  if env.ffmpeg_returncode ≠ 0 then
    ([.ffmpegRun], .error ("ffmpeg failed: " ++ env.ffmpeg_stderr))
  else
    match env.file_save with
    | .error e => ([.ffmpegRun], .error e)
    | .ok _ =>
      ([.ffmpegRun, .write ⟨.completed, "", some env.out_filename⟩], .ok ())

/-- `process_short_video` (lines 504-648): resolver, probe, window
validation against a known source duration, then the transcoding tail.
Returns the emitted events and the overall outcome (`.error` models an
escaped exception). -/
def process_short_video_run (short : Short) (overlay : OverlayOptions)
    (crop : Option CropOptions) (env : ProcEnv) :
    List PipeEvent × Except String Unit :=
  match download_source_video env.fs env.dl with
  | .error e => ([], .error e)
  | .ok (_, info) =>
    match extract_video_dimensions info env.probe with
    | .error e => ([], .error e)
    | .ok (source_width, source_height) =>
      match info.duration with
      | some d =>
        if short.start_time + short.duration > pyTrunc d then
          ([], .error "Requested start time and duration exceed the source video length.")
        else process_tail overlay crop source_width source_height env
      | none => process_tail overlay crop source_width source_height env

/-- `_start_background_processing._worker` (lines 399-412): run the
pipeline, catching every exception into a single failed write whose
message falls back to a generic one when the exception message is empty.
`lookup` models `ShortVideo.objects.get(pk=short_id)`. -/
def worker_run (lookup : Except String Short) (overlay : OverlayOptions)
    (crop : Option CropOptions) (env : ProcEnv) : List PipeEvent :=
  match lookup with
  | .error e =>
    [.write ⟨.failed, if e = "" then "Short generation failed." else e, none⟩]
  | .ok short =>
    let r := process_short_video_run short overlay crop env
    match r.2 with
    | .ok _ => r.1
    | .error e =>
      r.1 ++ [.write ⟨.failed, if e = "" then "Short generation failed." else e, none⟩]

/-- The terminal writes among a run's events. -/
def terminal_writes (events : List PipeEvent) : List TerminalWrite :=
  events.filterMap (fun ev =>
    match ev with
    | .write w => some w
    | .ffmpegRun => none)

/-! ## Theorems -/

/-! ### Properties of `_normalize_crop_area` -/

theorem pyRound_nonneg {q : ℚ} (h : 0 ≤ q) : 0 ≤ pyRound q := by
  unfold pyRound
  have hf : (0:ℤ) ≤ ⌊q⌋ := Int.floor_nonneg.mpr h
  dsimp only
  split_ifs <;> omega

theorem pyRound_le_intCast {q : ℚ} {n : ℤ} (h : q ≤ (n:ℚ)) : pyRound q ≤ n := by
  unfold pyRound
  have hf : ⌊q⌋ ≤ n := by
    have := Int.floor_le_floor h
    simpa using this
  dsimp only
  split_ifs with h1 h2 h3
  · exact hf
  · rcases eq_or_lt_of_le hf with he | hl
    · exfalso
      have : q - (⌊q⌋:ℚ) ≤ 0 := by
        rw [he]; linarith
      linarith
    · omega
  · exact hf
  · rcases eq_or_lt_of_le hf with he | hl
    · exfalso
      have : q - (⌊q⌋:ℚ) ≤ 0 := by
        rw [he]; linarith
      linarith
    · omega

theorem pyRound_intCast (n : ℤ) : pyRound (n:ℚ) = n := by
  unfold pyRound
  dsimp only
  rw [Int.floor_intCast]
  simp

set_option maxHeartbeats 1000000 in
/-- In-bounds / parity specification of every `some` result of
`_normalize_crop_area`, assuming a source frame of at least 2x2. -/
theorem normalize_crop_area_spec_aux (crop : CropOptions) (sw sh : ℤ)
    (hW : 2 ≤ sw) (hH : 2 ≤ sh) (r : CropOptions)
    (h : normalize_crop_area crop sw sh = some r) :
    ∃ a b c d : ℤ, r = ⟨(a:ℚ), (b:ℚ), (c:ℚ), (d:ℚ)⟩ ∧
      0 ≤ a ∧ 0 ≤ b ∧ 2 ≤ c ∧ 2 ≤ d ∧ c % 2 = 0 ∧ d % 2 = 0 ∧
      a + c ≤ sw ∧ b + d ≤ sh := by
  unfold normalize_crop_area at h
  set x : ℚ := max 0 (min crop.x ((sw : ℚ) - 1)) with hx
  set y : ℚ := max 0 (min crop.y ((sh : ℚ) - 1)) with hy
  have hx0 : 0 ≤ x := le_max_left _ _
  have hy0 : 0 ≤ y := le_max_left _ _
  have hx1 : x ≤ (sw : ℚ) - 1 := by
    apply max_le
    · have : (1:ℚ) ≤ (sw:ℚ) := by exact_mod_cast hW.trans' (by norm_num)
      linarith
    · exact min_le_right _ _
  have hy1 : y ≤ (sh : ℚ) - 1 := by
    apply max_le
    · have : (1:ℚ) ≤ (sh:ℚ) := by exact_mod_cast hH.trans' (by norm_num)
      linarith
    · exact min_le_right _ _
  set left0 : ℤ := pyRound x with hleft0
  set top0 : ℤ := pyRound y with htop0
  have hL0 : 0 ≤ left0 := pyRound_nonneg hx0
  have hL1 : left0 ≤ sw - 1 := by
    apply pyRound_le_intCast
    push_cast
    linarith
  have hT0 : 0 ≤ top0 := pyRound_nonneg hy0
  have hT1 : top0 ≤ sh - 1 := by
    apply pyRound_le_intCast
    push_cast
    linarith
  dsimp only at h
  split_ifs at h
  all_goals rw [Option.some.injEq] at h
  all_goals subst h
  all_goals refine ⟨_, _, _, _, rfl, ?_, ?_, ?_, ?_, ?_, ?_, ?_, ?_⟩
  all_goals omega

/-- A `some` result is impossible when the source is at most one pixel wide. -/
theorem nca_none_small_w (crop : CropOptions) (sw sh : ℤ) (hsw : sw ≤ 1) :
    normalize_crop_area crop sw sh = none := by
  unfold normalize_crop_area
  set x : ℚ := max 0 (min crop.x ((sw : ℚ) - 1)) with hxdef
  have hx0 : 0 ≤ x := le_max_left _ _
  have hsw' : (sw:ℚ) ≤ 1 := by exact_mod_cast hsw
  dsimp only
  split_ifs
  all_goals try rfl
  all_goals exfalso
  all_goals push_neg at *
  all_goals casesm* _ ∧ _
  all_goals have hbw : max (1:ℚ) ((sw:ℚ) - x) ≤ 1 := max_le le_rfl (by linarith)
  all_goals have hmw : (1:ℚ) ≤ max 1 crop.width := le_max_left _ _
  all_goals linarith

/-- A `some` result is impossible when the source is at most one pixel tall. -/
theorem nca_none_small_h (crop : CropOptions) (sw sh : ℤ) (hsh : sh ≤ 1) :
    normalize_crop_area crop sw sh = none := by
  unfold normalize_crop_area
  set y : ℚ := max 0 (min crop.y ((sh : ℚ) - 1)) with hydef
  have hy0 : 0 ≤ y := le_max_left _ _
  have hsh' : (sh:ℚ) ≤ 1 := by exact_mod_cast hsh
  dsimp only
  split_ifs
  all_goals try rfl
  all_goals exfalso
  all_goals push_neg at *
  all_goals casesm* _ ∧ _
  all_goals have hbh : max (1:ℚ) ((sh:ℚ) - y) ≤ 1 := max_le le_rfl (by linarith)
  all_goals have hmh : (1:ℚ) ≤ max 1 crop.height := le_max_left _ _
  all_goals linarith

/-- Full specification of every `some` result, for arbitrary source sizes:
a `some` result forces a source frame of at least 2x2 and satisfies the
in-bounds / parity contract. -/
theorem normalize_crop_area_some_spec (crop : CropOptions) (sw sh : ℤ)
    (r : CropOptions) (h : normalize_crop_area crop sw sh = some r) :
    2 ≤ sw ∧ 2 ≤ sh ∧
    ∃ a b c d : ℤ, r = ⟨(a:ℚ), (b:ℚ), (c:ℚ), (d:ℚ)⟩ ∧
      0 ≤ a ∧ 0 ≤ b ∧ 2 ≤ c ∧ 2 ≤ d ∧ c % 2 = 0 ∧ d % 2 = 0 ∧
      a + c ≤ sw ∧ b + d ≤ sh := by
  rcases le_or_lt sw 1 with hsw | hsw
  · rw [nca_none_small_w crop sw sh hsw] at h
    exact Option.noConfusion h
  rcases le_or_lt sh 1 with hsh | hsh
  · rw [nca_none_small_h crop sw sh hsh] at h
    exact Option.noConfusion h
  exact ⟨hsw, hsh, normalize_crop_area_spec_aux crop sw sh hsw hsh r h⟩

/-- A rectangle already satisfying the normalization contract is a fixed
point of `_normalize_crop_area`. -/
theorem nca_fixed (a b c d sw sh : ℤ)
    (ha : 0 ≤ a) (hb : 0 ≤ b) (hc : 2 ≤ c) (hd : 2 ≤ d)
    (hce : c % 2 = 0) (hde : d % 2 = 0)
    (hacw : a + c ≤ sw) (hbdh : b + d ≤ sh) :
    normalize_crop_area ⟨(a:ℚ), (b:ℚ), (c:ℚ), (d:ℚ)⟩ sw sh =
      some ⟨(a:ℚ), (b:ℚ), (c:ℚ), (d:ℚ)⟩ := by
  unfold normalize_crop_area
  have hxa : max 0 (min ((a:ℚ)) ((sw:ℚ)-1)) = (a:ℚ) := by
    rw [min_eq_left (by exact_mod_cast (by omega : a ≤ sw - 1)),
      max_eq_right (by exact_mod_cast ha)]
  have hyb : max 0 (min ((b:ℚ)) ((sh:ℚ)-1)) = (b:ℚ) := by
    rw [min_eq_left (by exact_mod_cast (by omega : b ≤ sh - 1)),
      max_eq_right (by exact_mod_cast hb)]
  have hwc : max 1 ((c:ℚ)) = (c:ℚ) := max_eq_right (by exact_mod_cast (by omega : (1:ℤ) ≤ c))
  have hhd : max 1 ((d:ℚ)) = (d:ℚ) := max_eq_right (by exact_mod_cast (by omega : (1:ℤ) ≤ d))
  dsimp only
  rw [hxa, hyb, hwc, hhd]
  have hs1 : ¬((a:ℚ) + (c:ℚ) > (sw:ℚ)) := not_lt.mpr (by exact_mod_cast hacw)
  have hs2 : ¬((b:ℚ) + (d:ℚ) > (sh:ℚ)) := not_lt.mpr (by exact_mod_cast hbdh)
  rw [if_neg hs1, if_neg hs2]
  have hrej : ¬((c:ℚ) ≤ 1 ∨ (d:ℚ) ≤ 1) := by
    rintro (hle | hle)
    · exact absurd (by exact_mod_cast hle : c ≤ 1) (by omega)
    · exact absurd (by exact_mod_cast hle : d ≤ 1) (by omega)
  rw [if_neg hrej]
  have hac : (a:ℚ) + (c:ℚ) = ((a+c:ℤ):ℚ) := by push_cast; ring
  have hbd : (b:ℚ) + (d:ℚ) = ((b+d:ℤ):ℚ) := by push_cast; ring
  rw [hac, hbd, pyRound_intCast, pyRound_intCast, pyRound_intCast, pyRound_intCast]
  rw [min_eq_right (by omega : a + c ≤ sw), min_eq_right (by omega : b + d ≤ sh)]
  rw [show a + c - a = c from by ring, show b + d - b = d from by ring]
  rw [max_eq_right (by omega : 2 ≤ c), max_eq_right (by omega : 2 ≤ d)]
  rw [if_neg (by omega : ¬(c % 2 = 1)), if_neg (by omega : ¬(d % 2 = 1))]
  rw [if_neg (by omega : ¬(c < 2 ∨ d < 2))]
  rw [if_neg (by omega : ¬(a + c > sw)), if_neg (by omega : ¬(b + d > sh))]

/-- Claim C1: for every source frame of at least 2x2 and every crop request,
`_normalize_crop_area` returns either `none` or a rectangle whose width and
height are even integers at least 2 and which is fully contained in the
source frame (`0 ≤ x`, `0 ≤ y`, `x + width ≤ sourceW`,
`y + height ≤ sourceH`). -/
theorem normalize_crop_area_result_in_bounds (crop : CropOptions)
    (sourceW sourceH : ℤ) (hW : 2 ≤ sourceW) (hH : 2 ≤ sourceH)
    (r : CropOptions) (h : normalize_crop_area crop sourceW sourceH = some r) :
    ∃ a b c d : ℤ, r = ⟨(a:ℚ), (b:ℚ), (c:ℚ), (d:ℚ)⟩ ∧
      0 ≤ a ∧ 0 ≤ b ∧ 2 ≤ c ∧ 2 ≤ d ∧ c % 2 = 0 ∧ d % 2 = 0 ∧
      a + c ≤ sourceW ∧ b + d ≤ sourceH :=
  (normalize_crop_area_some_spec crop sourceW sourceH r h).2.2

/-- Witness for C1 at the concrete crop request (100, 50, 301, 401) on a
1920x1080 source, whose normalization is (100, 50, 300, 400). -/
theorem normalize_crop_area_result_in_bounds_witness :
    (2:ℤ) ≤ 1920 ∧ (2:ℤ) ≤ 1080 ∧
    normalize_crop_area ⟨100, 50, 301, 401⟩ 1920 1080 =
      some ⟨100, 50, 300, 400⟩ ∧
    (∃ a b c d : ℤ,
      (⟨100, 50, 300, 400⟩ : CropOptions) = ⟨(a:ℚ), (b:ℚ), (c:ℚ), (d:ℚ)⟩ ∧
      0 ≤ a ∧ 0 ≤ b ∧ 2 ≤ c ∧ 2 ≤ d ∧ c % 2 = 0 ∧ d % 2 = 0 ∧
      a + c ≤ 1920 ∧ b + d ≤ 1080) :=
  ⟨by norm_num, by norm_num,
   by norm_num [normalize_crop_area, pyRound, min_def, max_def],
   normalize_crop_area_result_in_bounds ⟨100, 50, 301, 401⟩ 1920 1080
     (by norm_num) (by norm_num) ⟨100, 50, 300, 400⟩
     (by norm_num [normalize_crop_area, pyRound, min_def, max_def])⟩

/-- Claim C7: `_normalize_crop_area` is idempotent: a rectangle that is itself a
`some` output for some source dimensions normalizes to itself against those
same dimensions. -/
theorem normalize_crop_area_idempotent (crop r : CropOptions)
    (sourceW sourceH : ℤ)
    (h : normalize_crop_area crop sourceW sourceH = some r) :
    normalize_crop_area r sourceW sourceH = some r := by
  obtain ⟨hw2, hh2, a, b, c, d, rfl, ha, hb, hc, hd, hce, hde, hacw, hbdh⟩ :=
    normalize_crop_area_some_spec crop sourceW sourceH r h
  exact nca_fixed a b c d sourceW sourceH ha hb hc hd hce hde hacw hbdh

/-- Witness for C7 at the concrete crop request (100, 50, 301, 401) on a
1920x1080 source. -/
theorem normalize_crop_area_idempotent_witness :
    normalize_crop_area ⟨100, 50, 301, 401⟩ 1920 1080 =
      some ⟨100, 50, 300, 400⟩ ∧
    normalize_crop_area ⟨100, 50, 300, 400⟩ 1920 1080 =
      some ⟨100, 50, 300, 400⟩ :=
  ⟨by norm_num [normalize_crop_area, pyRound, min_def, max_def],
   normalize_crop_area_idempotent ⟨100, 50, 301, 401⟩ ⟨100, 50, 300, 400⟩
     1920 1080 (by norm_num [normalize_crop_area, pyRound, min_def, max_def])⟩

/-- Counterexample for C8: the x offset of a normalized crop need not be even:
the request (1, 0, 10, 10) on a 100x100 source normalizes to the rectangle
(1, 0, 10, 10), whose x offset 1 is odd. -/
theorem normalize_crop_area_x_offset_odd :
    normalize_crop_area ⟨1, 0, 10, 10⟩ 100 100 = some ⟨1, 0, 10, 10⟩ ∧
    ¬ isEvenInt ((⟨1, 0, 10, 10⟩ : CropOptions).x) := by
  constructor
  · norm_num [normalize_crop_area, pyRound, min_def, max_def]
  · rintro ⟨k, hk⟩
    dsimp only at hk
    have : (1:ℤ) = 2 * k := by exact_mod_cast hk
    omega

/-- Claim C8, amended: every `some` result of `_normalize_crop_area` has all four
fields equal to floats representing integers, and its width and height are
even integers at least 2; the x and y offsets are integers but need not be
even. -/
theorem normalize_crop_area_fields_integral (crop : CropOptions)
    (sourceW sourceH : ℤ) (r : CropOptions)
    (h : normalize_crop_area crop sourceW sourceH = some r) :
    (∃ a : ℤ, r.x = (a:ℚ)) ∧ (∃ b : ℤ, r.y = (b:ℚ)) ∧
    isEvenInt r.width ∧ isEvenInt r.height := by
  obtain ⟨-, -, a, b, c, d, rfl, -, -, hc, hd, hce, hde, -, -⟩ :=
    normalize_crop_area_some_spec crop sourceW sourceH r h
  refine ⟨⟨a, rfl⟩, ⟨b, rfl⟩, ⟨c / 2, ?_⟩, ⟨d / 2, ?_⟩⟩
  · show (c:ℚ) = ((2 * (c / 2) : ℤ) : ℚ)
    exact_mod_cast (by omega : c = 2 * (c / 2))
  · show (d:ℚ) = ((2 * (d / 2) : ℤ) : ℚ)
    exact_mod_cast (by omega : d = 2 * (d / 2))

/-- Witness for C8's amended claim at the request (100, 50, 301, 401) on a
1920x1080 source. -/
theorem normalize_crop_area_fields_integral_witness :
    normalize_crop_area ⟨100, 50, 301, 401⟩ 1920 1080 =
      some ⟨100, 50, 300, 400⟩ ∧
    ((∃ a : ℤ, (⟨100, 50, 300, 400⟩ : CropOptions).x = (a:ℚ)) ∧
     (∃ b : ℤ, (⟨100, 50, 300, 400⟩ : CropOptions).y = (b:ℚ)) ∧
     isEvenInt ((⟨100, 50, 300, 400⟩ : CropOptions).width) ∧
     isEvenInt ((⟨100, 50, 300, 400⟩ : CropOptions).height)) :=
  ⟨by norm_num [normalize_crop_area, pyRound, min_def, max_def],
   normalize_crop_area_fields_integral ⟨100, 50, 301, 401⟩ 1920 1080
     ⟨100, 50, 300, 400⟩
     (by norm_num [normalize_crop_area, pyRound, min_def, max_def])⟩

theorem string_data_append (s t : String) : (s ++ t).data = s.data ++ t.data := by
  cases s
  cases t
  rfl

theorem crop_filter_of_ne_empty (n : CropOptions) : crop_filter_of n ≠ "" := by
  unfold crop_filter_of
  intro h
  have hd := congrArg String.data h
  simp only [string_data_append, List.append_assoc] at hd
  simp at hd

/-- The drawtext stage always begins with `drawtext=`. -/
theorem text_overlay_of_startsWith (overlay : OverlayOptions)
    (fe : String → Bool) : strStartsWith (text_overlay_of overlay fe) "drawtext=" := by
  unfold text_overlay_of strStartsWith
  refine ⟨("text=" ++ squoteStr ++ escape_drawtext_value overlay.text ++ squoteStr ++ ":" ++
    "fontfile=" ++ resolve_font_path (requested_font_of overlay) fe ++ ":" ++
    "fontsize=" ++ intToString (font_size_value_of overlay) ++ ":" ++
    "fontcolor=" ++ fontcolor_value overlay.color ++ ":" ++
    "x=" ++ x_expression_of overlay.position_x_ratio ++ ":" ++
    "y=" ++ y_expression_of overlay.position_y_ratio ++ ":" ++
    "shadowcolor=black:shadowx=2:shadowy=2").data, ?_⟩
  simp [string_data_append, List.append_assoc]

/-- Claim C3: the filter list is exactly one of two geometry sequences --
crop/scale(decrease)/pad/setsar when a normalized crop exists,
scale(increase)/crop/setsar otherwise -- with the drawtext stage appended
last, after all geometry stages. -/
theorem build_filters_geometry_then_text (overlay : OverlayOptions)
    (crop : Option CropOptions) (sw sh : ℤ) (fe : String → Bool) :
    ∃ t : String, strStartsWith t "drawtext=" ∧
      build_filters overlay crop sw sh fe =
        (match normalized_crop_of crop sw sh with
         | some n =>
            [crop_filter_of n,
             "scale=1080:1920:force_original_aspect_ratio=decrease",
             "pad=1080:1920:(1080-iw)/2:(1920-ih)/2",
             "setsar=1"]
         | none =>
            ["scale=1080:1920:force_original_aspect_ratio=increase",
             "crop=1080:1920",
             "setsar=1"]) ++ [t] := by
  refine ⟨text_overlay_of overlay fe, text_overlay_of_startsWith overlay fe, ?_⟩
  unfold build_filters
  cases hn : normalized_crop_of crop sw sh with
  | none => rfl
  | some n =>
    dsimp only
    rw [if_pos ⟨rfl, crop_filter_of_ne_empty n⟩]

example : pyRound ((1234561/10000000 : ℚ) * 1000000) = 123456 := by
  norm_num [pyRound]

example : pyRound ((1234566/10000000 : ℚ) * 1000000) = 123457 := by
  norm_num [pyRound]

theorem pyRound_eq_floor_of (q : ℚ) (z : ℤ) (h1 : (z:ℚ) ≤ q)
    (hhalf : q - (z:ℚ) < 1/2) : pyRound q = z := by
  have hfl : ⌊q⌋ = z := Int.floor_eq_iff.mpr ⟨h1, by push_cast; linarith⟩
  unfold pyRound
  dsimp only
  rw [hfl]
  rw [if_pos (by push_cast; linarith)]

theorem pyRound_eq_ceil_of (q : ℚ) (z : ℤ) (h1 : (z:ℚ) ≤ q) (h2 : q < (z:ℚ) + 1)
    (hhalf : 1/2 < q - (z:ℚ)) : pyRound q = z + 1 := by
  have hfl : ⌊q⌋ = z := Int.floor_eq_iff.mpr ⟨h1, by push_cast; linarith⟩
  unfold pyRound
  dsimp only
  rw [hfl]
  rw [if_neg (by push_cast; linarith), if_pos (by push_cast; linarith)]

/-- Counterexample for C4: two ratios that agree in their first six
decimal digits (truncation to millionths is equal) but differ in the
seventh produce different formatted position expressions, because `.6f`
rounds rather than truncates. -/
theorem x_expression_sixth_digit_sensitivity :
    ⌊(1234561/10000000 : ℚ) * 1000000⌋ = ⌊(1234566/10000000 : ℚ) * 1000000⌋ ∧
    x_expression_of (some (1234561/10000000 : ℚ)) ≠
      x_expression_of (some (1234566/10000000 : ℚ)) := by
  constructor
  · rw [show (1234561/10000000 : ℚ) * 1000000 = 1234561/10 from by norm_num,
      show (1234566/10000000 : ℚ) * 1000000 = 617283/5 from by norm_num]
    rw [Int.floor_eq_iff.mpr (by constructor <;> norm_num : ((123456:ℤ):ℚ) ≤ 1234561/10 ∧ (1234561/10:ℚ) < 123456 + 1)]
    rw [Int.floor_eq_iff.mpr (by constructor <;> norm_num : ((123456:ℤ):ℚ) ≤ 617283/5 ∧ (617283/5:ℚ) < 123456 + 1)]
  · have h1 : formatRatio6 (1234561/10000000 : ℚ) = "0.123456" := by
      unfold formatRatio6
      rw [show |(1234561/10000000 : ℚ)| * 1000000 = 1234561/10 from by
        rw [abs_of_nonneg (by norm_num : (0:ℚ) ≤ 1234561/10000000)]
        norm_num]
      rw [pyRound_eq_floor_of (1234561/10) 123456 (by norm_num) (by norm_num)]
      rw [if_neg (by norm_num : ¬(1234561/10000000 : ℚ) < 0)]
      decide
    have h2 : formatRatio6 (1234566/10000000 : ℚ) = "0.123457" := by
      unfold formatRatio6
      rw [show |(1234566/10000000 : ℚ)| * 1000000 = 617283/5 from by
        rw [abs_of_nonneg (by norm_num : (0:ℚ) ≤ 1234566/10000000)]
        norm_num]
      rw [pyRound_eq_ceil_of (617283/5) 123456 (by norm_num) (by norm_num) (by norm_num)]
      rw [if_neg (by norm_num : ¬(1234566/10000000 : ℚ) < 0)]
      decide
    simp only [x_expression_of]
    rw [h1, h2]
    intro h
    have hd := congrArg String.data h
    simp [string_data_append] at hd

/-- Claim C4, amended: the filter-graph construction is deterministic
(identical inputs give identical output), and two nonnegative position
ratios whose values round to the same multiple of one millionth produce
identical formatted drawtext position expressions. -/
theorem build_filters_round_determinism (o : OverlayOptions) (c : Option CropOptions)
    (sw sh : ℤ) (fe : String → Bool) (r1 r2 : ℚ) (h1 : 0 ≤ r1) (h2 : 0 ≤ r2)
    (hr : pyRound (r1 * 1000000) = pyRound (r2 * 1000000)) :
    build_filters o c sw sh fe = build_filters o c sw sh fe ∧
    x_expression_of (some r1) = x_expression_of (some r2) ∧
    y_expression_of (some r1) = y_expression_of (some r2) := by
  have hf : formatRatio6 r1 = formatRatio6 r2 := by
    unfold formatRatio6
    rw [abs_of_nonneg h1, abs_of_nonneg h2, hr,
      if_neg (not_lt.mpr h1), if_neg (not_lt.mpr h2)]
  refine ⟨rfl, ?_, ?_⟩
  · simp only [x_expression_of]
    rw [hf]
  · simp only [y_expression_of]
    rw [hf]

theorem build_filters_round_determinism_witness :
    (0 ≤ (1/2 : ℚ)) ∧ (0 ≤ (5000001/10000000 : ℚ)) ∧
    pyRound ((1/2 : ℚ) * 1000000) = pyRound ((5000001/10000000 : ℚ) * 1000000) ∧
    (x_expression_of (some (1/2 : ℚ)) = x_expression_of (some (5000001/10000000 : ℚ)) ∧
     y_expression_of (some (1/2 : ℚ)) = y_expression_of (some (5000001/10000000 : ℚ))) := by
  have hr : pyRound ((1/2 : ℚ) * 1000000) = pyRound ((5000001/10000000 : ℚ) * 1000000) := by
    rw [show (1/2 : ℚ) * 1000000 = ((500000:ℤ):ℚ) from by norm_num, pyRound_intCast]
    rw [show (5000001/10000000 : ℚ) * 1000000 = 5000001/10 from by norm_num]
    rw [pyRound_eq_floor_of (5000001/10) 500000 (by norm_num) (by norm_num)]
  refine ⟨by norm_num, by norm_num, hr, ?_⟩
  have h := build_filters_round_determinism ⟨"t", "Arial", "#FFFFFF", 48, none, none⟩
    none 1920 1080 (fun _ => false) (1/2) (5000001/10000000)
    (by norm_num) (by norm_num) hr
  exact ⟨h.2.1, h.2.2⟩

theorem char_toNat_ofNat_valid (n : Nat) (h : n.isValidChar) :
    (Char.ofNat n).toNat = n := by
  rw [Char.ofNat, dif_pos h]
  rfl

theorem char_toUpper_toUpper (c : Char) : c.toUpper.toUpper = c.toUpper := by
  unfold Char.toUpper
  dsimp only
  split_ifs with h1 h2
  · exfalso
    obtain ⟨ha, hb⟩ := h1
    obtain ⟨ha2, hb2⟩ := h2
    have hv : (c.toNat - 32).isValidChar := by
      left
      omega
    rw [char_toNat_ofNat_valid _ hv] at ha2
    omega
  · rfl
  · rfl

theorem char_toUpper_ne_hash (c : Char) (h : ¬ c = hashChar) :
    ¬ Char.toUpper c = hashChar := by
  unfold Char.toUpper
  dsimp only
  split_ifs with h1
  · obtain ⟨ha, hb⟩ := h1
    intro he
    have hv : (c.toNat - 32).isValidChar := by
      left
      omega
    have := congrArg Char.toNat he
    rw [char_toNat_ofNat_valid _ hv] at this
    have hh : hashChar.toNat = 35 := by decide
    omega
  · exact h

theorem pyUpper_pyUpper (s : String) : pyUpper (pyUpper s) = pyUpper s := by
  unfold pyUpper
  dsimp only
  rw [List.map_map]
  rw [show Char.toUpper ∘ Char.toUpper = Char.toUpper from funext char_toUpper_toUpper]

theorem pyLen_pyUpper (s : String) : pyLen (pyUpper s) = pyLen s := by
  unfold pyLen pyUpper
  dsimp only
  rw [List.length_map]

theorem pyLen_hash_append (s : String) : pyLen ("#" ++ s) = 1 + pyLen s := by
  unfold pyLen
  rw [string_data_append, List.length_append]
  have h1 : (("#" : String).data).length = 1 := by decide
  omega

theorem string_eq_of_data {s t : String} (h : s.data = t.data) : s = t := by
  cases s
  cases t
  exact congrArg String.mk h

theorem pyUpper_hash_append (s : String) : pyUpper ("#" ++ s) = "#" ++ pyUpper s := by
  apply string_eq_of_data
  unfold pyUpper
  rw [string_data_append, string_data_append]
  rw [show (("#" : String).data) = [hashChar] from by decide]
  dsimp only [List.map_cons, List.map_nil, List.singleton_append, List.cons_append,
    List.nil_append]
  rw [show Char.toUpper hashChar = hashChar from by decide]

theorem normalize_of_core (core : String) (hno : startsWithHash core = false)
    (hlen : pyLen core = 6) :
    normalize_overlay_color core = "#" ++ pyUpper core := by
  have hemp : core ≠ "" := by
    intro he
    subst he
    simp [pyLen] at hlen
  unfold normalize_overlay_color
  rw [if_neg hemp]
  dsimp only
  rw [hno]
  simp only [Bool.false_eq_true, if_false]
  rw [if_neg]
  rw [pyLen_hash_append, pyLen_pyUpper]
  omega

theorem normalize_of_hash_core (core : String) (hno : startsWithHash core = false)
    (hlen : pyLen core = 6) :
    normalize_overlay_color ("#" ++ core) = "#" ++ pyUpper core := by
  have hemp : ("#" ++ core : String) ≠ "" := by
    intro he
    have := congrArg pyLen he
    rw [pyLen_hash_append] at this
    simp [pyLen] at this
  have hsw : startsWithHash ("#" ++ core) = true := by
    unfold startsWithHash
    rw [string_data_append]
    rw [show (("#" : String).data) = [hashChar] from by decide]
    simp
  unfold normalize_overlay_color
  rw [if_neg hemp]
  dsimp only
  rw [hsw]
  simp only [if_true]
  rw [pyUpper_hash_append]
  rw [if_neg]
  rw [pyLen_hash_append, pyLen_pyUpper]
  omega

/-- The transcoder-side color rendering of a view-normalized color. -/
theorem fontcolor_hash_core (core : String) (hno : startsWithHash core = false)
    (hlen : pyLen core = 6) :
    fontcolor_value ("#" ++ pyUpper core) = "0x" ++ pyUpper core := by
  unfold fontcolor_value
  dsimp only
  obtain ⟨c, cs, hdata⟩ : ∃ c cs, core.data = c :: cs := by
    cases hd : core.data with
    | nil =>
      exfalso
      unfold pyLen at hlen
      rw [hd] at hlen
      simp at hlen
    | cons c cs => exact ⟨c, cs, rfl⟩
  have hcne : ¬ c = hashChar := by
    unfold startsWithHash at hno
    rw [hdata] at hno
    simpa using hno
  have hstrip : lstripHash ("#" ++ pyUpper core) = pyUpper core := by
    unfold lstripHash pyUpper
    rw [string_data_append]
    rw [show (("#" : String).data) = [hashChar] from by decide]
    rw [hdata]
    dsimp only [List.map_cons]
    rw [List.singleton_append]
    rw [List.dropWhile_cons]
    simp only [decide_eq_true_eq]
    rw [if_pos trivial]
    rw [List.dropWhile_cons]
    simp only [decide_eq_true_eq]
    rw [if_neg (char_toUpper_ne_hash c hcne)]
  rw [hstrip]
  rw [if_neg]
  · rw [pyUpper_pyUpper]
  · rw [pyLen_pyUpper]
    omega

theorem white_of_no_hash_bad_len (raw : String) (hsw : startsWithHash raw = false)
    (hlen : pyLen raw ≠ 6) :
    fontcolor_value (normalize_overlay_color raw) = "0xFFFFFF" := by
  by_cases hemp : raw = ""
  · subst hemp
    decide
  · have hcol : normalize_overlay_color raw = DEFAULT_OVERLAY_COLOR := by
      unfold normalize_overlay_color
      rw [if_neg hemp]
      dsimp only
      rw [hsw]
      simp only [Bool.false_eq_true, if_false]
      rw [if_pos]
      rw [pyLen_hash_append, pyLen_pyUpper]
      omega
    rw [hcol]
    decide

/-- Claim C9, amended: the overlay color is never validated for
hex-digit-ness, only for shape: an input consisting of an optional single
leading `#` followed by exactly 6 characters (the first of which is not
`#`) is used as given, case-normalized, even when those characters are not
hex digits; every other input (empty, wrong length, or more than one
leading `#`) defaults to white `0xFFFFFF`. -/
theorem overlay_color_shape_spec (raw : String) :
    (∀ core : String, startsWithHash core = false → pyLen core = 6 →
      raw = core ∨ raw = "#" ++ core →
      fontcolor_value (normalize_overlay_color raw) = "0x" ++ pyUpper core) ∧
    ((¬ ∃ core : String, startsWithHash core = false ∧ pyLen core = 6 ∧
        (raw = core ∨ raw = "#" ++ core)) →
      fontcolor_value (normalize_overlay_color raw) = "0xFFFFFF") := by
  constructor
  · rintro core hno hlen (h | h)
    · rw [h, normalize_of_core core hno hlen]
      exact fontcolor_hash_core core hno hlen
    · rw [h, normalize_of_hash_core core hno hlen]
      exact fontcolor_hash_core core hno hlen
  · intro hn
    by_cases hemp : raw = ""
    · subst hemp
      decide
    cases hsw : startsWithHash raw with
    | false =>
      exact white_of_no_hash_bad_len raw hsw
        (fun hl => hn ⟨raw, hsw, hl, Or.inl rfl⟩)
    | true =>
      obtain ⟨rest, hdata⟩ : ∃ rest, raw.data = hashChar :: rest := by
        unfold startsWithHash at hsw
        cases hd : raw.data with
        | nil =>
          rw [hd] at hsw
          exact absurd hsw (by simp)
        | cons c cs =>
          rw [hd] at hsw
          simp only [decide_eq_true_eq] at hsw
          exact ⟨cs, by rw [hsw]⟩
      have hraw_decomp : raw = "#" ++ (⟨rest⟩ : String) := by
        apply string_eq_of_data
        rw [hdata, string_data_append]
        rw [show (("#" : String).data) = [hashChar] from by decide]
        rfl
      by_cases hlen7 : pyLen raw = 7
      · have htail6 : pyLen (⟨rest⟩ : String) = 6 := by
          unfold pyLen at hlen7 ⊢
          rw [hdata] at hlen7
          simpa using hlen7
        have htailsw : startsWithHash (⟨rest⟩ : String) = true := by
          cases hts : startsWithHash (⟨rest⟩ : String) with
          | true => rfl
          | false => exact absurd ⟨⟨rest⟩, hts, htail6, Or.inr hraw_decomp⟩ hn
        obtain ⟨rest2, hrest⟩ : ∃ rest2, rest = hashChar :: rest2 := by
          unfold startsWithHash at htailsw
          cases hr : rest with
          | nil =>
            rw [hr] at htailsw
            exact absurd htailsw (by simp)
          | cons c cs =>
            rw [hr] at htailsw
            simp only [decide_eq_true_eq] at htailsw
            exact ⟨cs, by rw [htailsw]⟩
        have hcol : normalize_overlay_color raw = pyUpper raw := by
          unfold normalize_overlay_color
          rw [if_neg hemp]
          dsimp only
          rw [hsw]
          simp only [if_true]
          rw [if_neg]
          rw [pyLen_pyUpper]
          omega
        rw [hcol]
        have hr2len : rest2.length = 5 := by
          unfold pyLen at hlen7
          rw [hdata, hrest] at hlen7
          simpa using hlen7
        have hstrip_len : pyLen (lstripHash (pyUpper raw)) ≠ 6 := by
          have hle : pyLen (lstripHash (pyUpper raw)) ≤ 5 := by
            unfold pyLen lstripHash pyUpper
            dsimp only
            rw [hdata, hrest]
            dsimp only [List.map_cons]
            rw [show Char.toUpper hashChar = hashChar from by decide]
            simp only [List.dropWhile_cons, decide_eq_true_eq]
            rw [if_pos trivial, if_pos trivial]
            calc (List.dropWhile (fun c => decide (c = hashChar))
                    (List.map Char.toUpper rest2)).length
                ≤ (List.map Char.toUpper rest2).length :=
                  List.Sublist.length_le (List.dropWhile_sublist _)
              _ = 5 := by rw [List.length_map, hr2len]
          omega
        unfold fontcolor_value
        dsimp only
        rw [if_pos hstrip_len]
        decide
      · have hcol : normalize_overlay_color raw = DEFAULT_OVERLAY_COLOR := by
          unfold normalize_overlay_color
          rw [if_neg hemp]
          dsimp only
          rw [hsw]
          simp only [if_true]
          rw [if_pos]
          rw [pyLen_pyUpper]
          exact hlen7
        rw [hcol]
        decide

/-- Witness for C9's amended claim: the serializer-shaped input `#ffcc00`
and the bare input `GGGGGG` are used case-normalized, while `###CDE`
(two leading `#`s after stripping one) falls back to white. -/
theorem overlay_color_shape_spec_witness :
    startsWithHash "ffcc00" = false ∧ pyLen "ffcc00" = 6 ∧
    fontcolor_value (normalize_overlay_color "#ffcc00") = "0x" ++ pyUpper "ffcc00" ∧
    fontcolor_value (normalize_overlay_color "GGGGGG") = "0x" ++ pyUpper "GGGGGG" ∧
    fontcolor_value (normalize_overlay_color "###CDE") = "0xFFFFFF" := by
  refine ⟨by decide, by decide, ?_, ?_, ?_⟩
  · exact (overlay_color_shape_spec "#ffcc00").1 "ffcc00" (by decide) (by decide)
      (Or.inr (by decide))
  · exact (overlay_color_shape_spec "GGGGGG").1 "GGGGGG" (by decide) (by decide)
      (Or.inl rfl)
  · apply (overlay_color_shape_spec "###CDE").2
    rintro ⟨core, hc1, hc2, h | h⟩
    · rw [← h] at hc1
      exact absurd hc1 (by decide)
    · have hd := congrArg String.data h
      rw [string_data_append] at hd
      rw [show (("###CDE" : String).data) = hashChar :: (("##CDE" : String).data)
        from by decide] at hd
      rw [show (("#" : String).data) = [hashChar] from by decide,
        List.singleton_append] at hd
      injection hd with h1 h2
      rw [string_eq_of_data h2.symm] at hc1
      exact absurd hc1 (by decide)


/-- Counterexample for C9: the malformed 6-character value `GGGGGG` is not
a well-formed hex color, yet it is used verbatim as `0xGGGGGG` instead of
the white default. -/
theorem overlay_color_not_validated :
    wellFormedHexColor "GGGGGG" = false ∧
    fontcolor_value (normalize_overlay_color "GGGGGG") = "0xGGGGGG" ∧
    fontcolor_value (normalize_overlay_color "GGGGGG") ≠ "0xFFFFFF" := by
  refine ⟨by decide, by decide, by decide⟩

/-- Claim C10: whenever `overlay_text_x` or `overlay_text_y` is supplied,
the ratio placed into the overlay options is clamped into `[0, 1]`: a
value below 0 becomes 0, a value above 1 becomes 1, and an in-range value
is kept unchanged. -/
theorem overlay_position_ratios_clamped (p : GenerationPayload) :
    (∀ v : ℚ, p.overlay_text_x = some v →
      (build_overlay_options p).position_x_ratio = some (max 0 (min 1 v)) ∧
      0 ≤ max 0 (min 1 v) ∧ max 0 (min 1 v) ≤ 1 ∧
      (v < 0 → max 0 (min 1 v) = 0) ∧ (1 < v → max 0 (min 1 v) = 1) ∧
      (0 ≤ v → v ≤ 1 → max 0 (min 1 v) = v)) ∧
    (∀ v : ℚ, p.overlay_text_y = some v →
      (build_overlay_options p).position_y_ratio = some (max 0 (min 1 v)) ∧
      0 ≤ max 0 (min 1 v) ∧ max 0 (min 1 v) ≤ 1 ∧
      (v < 0 → max 0 (min 1 v) = 0) ∧ (1 < v → max 0 (min 1 v) = 1) ∧
      (0 ≤ v → v ≤ 1 → max 0 (min 1 v) = v)) := by
  have hb : ∀ v : ℚ, (0 ≤ max 0 (min 1 v) ∧ max 0 (min 1 v) ≤ 1 ∧
      (v < 0 → max 0 (min 1 v) = 0) ∧ (1 < v → max 0 (min 1 v) = 1) ∧
      (0 ≤ v → v ≤ 1 → max 0 (min 1 v) = v)) := by
    intro v
    refine ⟨le_max_left _ _, max_le (by norm_num) (min_le_left _ _), ?_, ?_, ?_⟩
    · intro hv
      rw [min_eq_right (by linarith), max_eq_left (by linarith)]
    · intro hv
      rw [min_eq_left (by linarith), max_eq_right (by norm_num)]
    · intro h0 h1
      rw [min_eq_right h1, max_eq_right h0]
  constructor
  · intro v hv
    refine ⟨?_, hb v⟩
    unfold build_overlay_options
    dsimp only
    rw [hv]
    rfl
  · intro v hv
    refine ⟨?_, hb v⟩
    unfold build_overlay_options
    dsimp only
    rw [hv]
    rfl

theorem overlay_position_ratios_clamped_witness :
    ((build_overlay_options ⟨none, none, none, none, some (-2), some (3/2)⟩).position_x_ratio
      = some 0) ∧
    ((build_overlay_options ⟨none, none, none, none, some (-2), some (3/2)⟩).position_y_ratio
      = some 1) := by
  have hx := (overlay_position_ratios_clamped
    ⟨none, none, none, none, some (-2), some (3/2)⟩).1 (-2) rfl
  have hy := (overlay_position_ratios_clamped
    ⟨none, none, none, none, some (-2), some (3/2)⟩).2 (3/2) rfl
  constructor
  · rw [hx.1]
    norm_num
  · rw [hy.1]
    norm_num


/-- Claim C5: whenever the prepare-filename query succeeds and its resolved
path exists on disk, the source resolver returns that path, whatever other
`requested_downloads` entries or top-level filename fields the metadata
contains: the prepared filename has the highest priority. -/
theorem prepared_filename_priority (fs : FS) (info : FetchInfo) (p : String)
    (hex : fs.pathExists (if fs.isAbsolute p then p else fs.resolveRel p) = true) :
    download_source_video fs (.ok info (.ok p)) =
      .ok ((if fs.isAbsolute p then p else fs.resolveRel p), info) := by
  unfold download_source_video candidate_paths
  dsimp only
  unfold resolve_first_existing
  rw [if_neg (List.not_mem_nil p)]
  dsimp only
  rw [hex]
  simp

/-- A successful pipeline run emits exactly the terminal completed write;
a failed run emits no terminal write of its own. -/
theorem process_run_writes (short : Short) (overlay : OverlayOptions)
    (crop : Option CropOptions) (env : ProcEnv) :
    ((process_short_video_run short overlay crop env).2 = .ok () →
       terminal_writes (process_short_video_run short overlay crop env).1 =
         [⟨.completed, "", some env.out_filename⟩]) ∧
    (∀ e, (process_short_video_run short overlay crop env).2 = .error e →
       terminal_writes (process_short_video_run short overlay crop env).1 = []) := by
  unfold process_short_video_run process_tail
  split
  · constructor
    · intro hx
      simp_all
    · intro e he
      simp [terminal_writes]
  · split
    · constructor
      · intro hx
        simp_all
      · intro e he
        simp [terminal_writes]
    · split
      · split
        · constructor
          · intro hx
            simp_all
          · intro e he
            simp [terminal_writes]
        · split
          · constructor
            · intro hx
              simp_all
            · intro e he
              simp [terminal_writes]
          · split
            · constructor
              · intro hx
                simp_all
              · intro e he
                simp [terminal_writes]
            · constructor
              · intro hx
                simp [terminal_writes]
              · intro e he
                simp_all
      · split
        · constructor
          · intro hx
            simp_all
          · intro e he
            simp [terminal_writes]
        · split
          · constructor
            · intro hx
              simp_all
            · intro e he
              simp [terminal_writes]
          · constructor
            · intro hx
              simp [terminal_writes]
            · intro e he
              simp_all

/-- Claim C2: every worker run performs exactly one terminal status write;
when any stage raises, it is a failed write with a non-empty message (the
exception message, or the generic one when that is empty) and no artifact;
on full success it is a completed write with the artifact attached and an
empty error message. -/
theorem worker_single_terminal_write (lookup : Except String Short)
    (overlay : OverlayOptions) (crop : Option CropOptions) (env : ProcEnv) :
    ∃ w : TerminalWrite,
      terminal_writes (worker_run lookup overlay crop env) = [w] ∧
      ((w.status = .completed ∧ w.error_message = "" ∧ w.file = some env.out_filename ∧
        ∃ short, lookup = .ok short ∧
          (process_short_video_run short overlay crop env).2 = .ok ()) ∨
       (w.status = .failed ∧ w.error_message ≠ "" ∧ w.file = none ∧
        ((∃ e, lookup = .error e) ∨
         ∃ short e, lookup = .ok short ∧
           (process_short_video_run short overlay crop env).2 = .error e))) := by
  cases lookup with
  | error e =>
    refine ⟨⟨.failed, if e = "" then "Short generation failed." else e, none⟩, ?_, ?_⟩
    · simp [worker_run, terminal_writes]
    · right
      refine ⟨rfl, ?_, rfl, Or.inl ⟨e, rfl⟩⟩
      by_cases he : e = ""
      · rw [if_pos he]
        intro hgen
        exact absurd (congrArg String.data hgen) (by decide)
      · rw [if_neg he]
        exact he
  | ok short =>
    cases hr : (process_short_video_run short overlay crop env).2 with
    | ok u =>
      refine ⟨⟨.completed, "", some env.out_filename⟩, ?_, ?_⟩
      · have h1 := (process_run_writes short overlay crop env).1 hr
        unfold worker_run
        dsimp only
        rw [hr]
        exact h1
      · exact Or.inl ⟨rfl, rfl, rfl, short, rfl, hr⟩
    | error e =>
      refine ⟨⟨.failed, if e = "" then "Short generation failed." else e, none⟩, ?_, ?_⟩
      · have h2 := (process_run_writes short overlay crop env).2 e hr
        unfold worker_run
        dsimp only
        rw [hr]
        unfold terminal_writes
        rw [List.filterMap_append]
        unfold terminal_writes at h2
        rw [h2]
        rfl
      · right
        refine ⟨rfl, ?_, rfl, Or.inr ⟨short, e, rfl, hr⟩⟩
        by_cases he : e = ""
        · rw [if_pos he]
          intro hgen
          exact absurd (congrArg String.data hgen) (by decide)
        · rw [if_neg he]
          exact he

/-- Claim C6, amended: for every job whose source resolves and whose
dimensions are determinable, if the metadata contains a source duration
and `start_time + duration` exceeds it, the pipeline raises the
window-exceeds-source error before any transcoding is attempted (no
transcoder invocation event) and the worker ends the job failed with that
message. -/
theorem window_exceeds_source_fails (short : Short) (overlay : OverlayOptions)
    (crop : Option CropOptions) (env : ProcEnv) (p : String) (info : FetchInfo)
    (d : ℚ) (w h : ℤ)
    (hdl : download_source_video env.fs env.dl = .ok (p, info))
    (hdim : extract_video_dimensions info env.probe = .ok (w, h))
    (hdur : info.duration = some d)
    (hwin : short.start_time + short.duration > pyTrunc d) :
    process_short_video_run short overlay crop env =
      ([], .error "Requested start time and duration exceed the source video length.") ∧
    PipeEvent.ffmpegRun ∉ (process_short_video_run short overlay crop env).1 ∧
    worker_run (.ok short) overlay crop env =
      [.write ⟨.failed,
        "Requested start time and duration exceed the source video length.", none⟩] := by
  have hproc : process_short_video_run short overlay crop env =
      ([], .error "Requested start time and duration exceed the source video length.") := by
    unfold process_short_video_run
    rw [hdl]
    dsimp only
    rw [hdim]
    dsimp only
    rw [hdur]
    dsimp only
    rw [if_pos hwin]
  refine ⟨hproc, ?_, ?_⟩
  · rw [hproc]
    simp
  · unfold worker_run
    dsimp only
    rw [hproc]
    simp

/-- Counterexample for C6: a job whose metadata has a known duration of
600 and window 590+30 > 600, but no determinable dimensions, fails with
the dimensions error before the window validation is ever reached, so the
pipeline does not raise the window-exceeds-source error. -/
theorem window_check_skipped_without_dims :
    (process_short_video_run ⟨590, 30⟩ ⟨"t", "Arial", "#FFFFFF", 48, none, none⟩ none
        ⟨⟨fun _ => true, id, fun _ => true, []⟩,
         .ok ⟨none, none, none, none, none, none, some 600⟩ (.ok "src.mp4"),
         none, 0, "", .ok (), "out.mp4"⟩) =
      ([], .error "Unable to determine source video dimensions.") ∧
    (⟨none, none, none, none, none, none, some 600⟩ : FetchInfo).duration = some 600 ∧
    (590 : ℤ) + 30 > pyTrunc 600 ∧
    "Unable to determine source video dimensions." ≠
      "Requested start time and duration exceed the source video length." := by
  refine ⟨?_, rfl, ?_, ?_⟩
  · rfl
  · have : pyTrunc (600:ℚ) = 600 := by
      unfold pyTrunc
      rw [if_pos (by norm_num)]
      rw [show (600:ℚ) = ((600:ℤ):ℚ) from by norm_num, Int.floor_intCast]
    rw [this]
    norm_num
  · intro hgen
    exact absurd (congrArg String.data hgen) (by decide)

/-- Witness for C5 on a concrete filesystem where every path exists. -/
theorem prepared_filename_priority_witness :
    (FS.mk (fun _ => true) id (fun _ => true) []).pathExists
      (if (FS.mk (fun _ => true) id (fun _ => true) []).isAbsolute "video.mp4"
       then "video.mp4"
       else (FS.mk (fun _ => true) id (fun _ => true) []).resolveRel "video.mp4") = true ∧
    download_source_video (FS.mk (fun _ => true) id (fun _ => true) [])
        (.ok ⟨some [⟨some "other.mp4", none⟩], some "a.mp4", some "b.mp4", some "c.mp4",
          none, none, none⟩ (.ok "video.mp4")) =
      .ok ((if (FS.mk (fun _ => true) id (fun _ => true) []).isAbsolute "video.mp4"
            then "video.mp4"
            else (FS.mk (fun _ => true) id (fun _ => true) []).resolveRel "video.mp4"),
        ⟨some [⟨some "other.mp4", none⟩], some "a.mp4", some "b.mp4", some "c.mp4",
          none, none, none⟩) :=
  ⟨rfl, prepared_filename_priority (FS.mk (fun _ => true) id (fun _ => true) [])
    ⟨some [⟨some "other.mp4", none⟩], some "a.mp4", some "b.mp4", some "c.mp4",
      none, none, none⟩ "video.mp4" rfl⟩

/-- Witness for C6's amended claim at the spec's scenario C: start 590,
duration 30, source duration 600. -/
theorem window_exceeds_source_fails_witness :
    download_source_video (FS.mk (fun _ => true) id (fun _ => true) [])
        (.ok ⟨none, none, none, none, some 1920, some 1080, some 600⟩ (.ok "src.mp4")) =
      .ok ("src.mp4", ⟨none, none, none, none, some 1920, some 1080, some 600⟩) ∧
    (590 : ℤ) + 30 > pyTrunc 600 ∧
    worker_run (.ok ⟨590, 30⟩) ⟨"t", "Arial", "#FFFFFF", 48, none, none⟩ none
        ⟨FS.mk (fun _ => true) id (fun _ => true) [],
         .ok ⟨none, none, none, none, some 1920, some 1080, some 600⟩ (.ok "src.mp4"),
         none, 0, "", .ok (), "out.mp4"⟩ =
      [.write ⟨.failed,
        "Requested start time and duration exceed the source video length.", none⟩] := by
  have hwin : (590 : ℤ) + 30 > pyTrunc 600 := by
    have : pyTrunc (600:ℚ) = 600 := by
      unfold pyTrunc
      rw [if_pos (by norm_num)]
      rw [show (600:ℚ) = ((600:ℤ):ℚ) from by norm_num, Int.floor_intCast]
    rw [this]
    norm_num
  refine ⟨rfl, hwin, ?_⟩
  exact (window_exceeds_source_fails ⟨590, 30⟩ ⟨"t", "Arial", "#FFFFFF", 48, none, none⟩
    none ⟨FS.mk (fun _ => true) id (fun _ => true) [],
      .ok ⟨none, none, none, none, some 1920, some 1080, some 600⟩ (.ok "src.mp4"),
      none, 0, "", .ok (), "out.mp4"⟩ "src.mp4"
    ⟨none, none, none, none, some 1920, some 1080, some 600⟩ 600 1920 1080
    rfl rfl rfl hwin).2.2
